import Mathlib

/-!
Verification of the SmartSpendAI receipt-scanning pipeline and its immediate
collaborators, shallowly embedded from the TypeScript source:

  * `src/ai/flows/scan-receipt.ts` — the two-stage flow `scanReceiptFlow`
    (Stage 1 `extractRawContentPrompt`, Stage 2 `structureScannedTextPrompt`),
    its zod output schema, and its error-classification policy;
  * the receipt-scan modal (revision with the client-side image normalizer):
    `resizeAndCompressImage`, `handleScan`, `handleConfirmScan`;
  * `expense-form.tsx` — the localStorage category cache
    (`getCachedCategory` / `setCachedCategory`) and `handleSuggestCategory`.

Hosted-model calls are modelled as environment-supplied outcomes (an exception
with an optional message, or a genkit result record); everything the
surrounding code computes is embedded as executable Lean definitions.
-/

namespace SmartSpend

/-! ## JavaScript string primitives used by the source -/

/-- `pat.leadsWith s`: the character list `pat` is an initial segment of `s`. -/
def leadsWith : List Char → List Char → Bool
  | [], _ => true
  | _ :: _, [] => false
  | a :: as, b :: bs => a == b && leadsWith as bs

/-- Does the character list `s` contain `pat` as a contiguous segment? -/
def hasSegment (pat : List Char) : List Char → Bool
  | [] => pat.isEmpty
  | s@(_ :: rest) => leadsWith pat s || hasSegment pat rest

/-- JavaScript `s.includes(pat)` on strings. -/
def jsIncludes (s pat : String) : Bool :=
  hasSegment pat.toList s.toList

/-- JavaScript `s.toLowerCase()` restricted to the ASCII mapping, which covers
every string the flow matches against. -/
def jsToLower (s : String) : String :=
  String.mk (s.toList.map Char.toLower)

/-- JavaScript `x || d` for a possibly-absent string `x`: the default is used
when `x` is `undefined`/`null` or the empty string (both falsy). -/
def jsOrDefault (x : Option String) (d : String) : String :=
  match x with
  | none => d
  | some s => if s = "" then d else s

/-! ## The zod output schema of Stage 2 (`ScanReceiptOutputSchema`)

`scan-receipt.ts` declares the final output as an object with `storeName`
(string), `items` (array of objects with `name`/`price`/`brand`/`category`),
and `total` (number).  We embed JSON values and the schema's parse function;
zod yields a validated value exactly when every required field is present with
the right primitive type. -/

inductive Json where
  | str (s : String)
  | num (q : ℚ)
  | bool (b : Bool)
  | null
  | arr (elems : List Json)
  | obj (fields : List (String × Json))

def Json.getField : Json → String → Option Json
  | .obj fs, k => (fs.find? (fun p => p.1 == k)).map (fun p => p.2)
  | _, _ => none

def Json.asStr : Json → Option String
  | .str s => some s
  | _ => none

def Json.asNum : Json → Option ℚ
  | .num q => some q
  | _ => none

def Json.asArr : Json → Option (List Json)
  | .arr xs => some xs
  | _ => none

/-- One entry of the `items` array of `ScanReceiptOutputSchema`. -/
structure ScannedItem where
  name : String
  price : ℚ
  brand : String
  category : String
deriving DecidableEq, Repr

/-- The validated Stage-2 / overall-flow output (`ScanReceiptOutput`). -/
structure ScanReceiptOutput where
  storeName : String
  items : List ScannedItem
  total : ℚ
deriving DecidableEq, Repr

/-- zod parse of one item object: all four fields are required. -/
def validateItem (j : Json) : Option ScannedItem := do
  let name ← (j.getField "name").bind Json.asStr
  let price ← (j.getField "price").bind Json.asNum
  let brand ← (j.getField "brand").bind Json.asStr
  let category ← (j.getField "category").bind Json.asStr
  pure { name := name, price := price, brand := brand, category := category }

/-- zod parse of `ScanReceiptOutputSchema`: `storeName`, `items`, `total` are
all required; a payload missing any of them (e.g. `total`) yields no validated
output. -/
def validateScanReceiptOutput (j : Json) : Option ScanReceiptOutput := do
  let storeName ← (j.getField "storeName").bind Json.asStr
  let itemsJson ← (j.getField "items").bind Json.asArr
  let items ← itemsJson.mapM validateItem
  let total ← (j.getField "total").bind Json.asNum
  pure { storeName := storeName, items := items, total := total }

/-! ## The two-stage flow `scanReceiptFlow`

Each prompt call either throws (a JS exception carrying an optional `message`
string) or returns a genkit result record with an `output` (already checked
against the prompt's output schema, so possibly absent) and an optional
`error`.  For Stage 2 we keep the model's raw JSON payload visible and apply
the zod parse `validateScanReceiptOutput` to obtain `output`, so that
schema-rejection claims are statable. -/

inductive StageOutcome (α : Type) where
  | threw (message : Option String)
  | returned (result : α)

/-- Genkit result of Stage 1 (`extractRawContentPrompt`): `output` is the
`rawContent` string when the schema-checked output object is present with the
field set (`none` covers both a missing output object and a missing field). -/
structure Stage1Result where
  output : Option String
  error : Option String

/-- Genkit result of Stage 2 (`structureScannedTextPrompt`): `payload` is the
model's raw JSON answer (if any); the schema-checked `output` the flow reads
is `payload.bind validateScanReceiptOutput`. -/
structure Stage2Result where
  payload : Option Json
  error : Option String

/-- The environment of one flow invocation: how each hosted-model call
behaves.  Stage 2's behaviour may depend on the raw text it is given. -/
structure FlowEnv where
  stage1 : StageOutcome Stage1Result
  stage2 : String → StageOutcome Stage2Result

/-- Observable events of one flow invocation, in order. -/
inductive FlowEvent where
  | stage1Start
  | stage2Start (rawReceiptText : String)
deriving DecidableEq, Repr

structure FlowRun where
  result : Except String ScanReceiptOutput
  trace : List FlowEvent

/-- The overload/unavailability matcher the flow applies to stringified
failures: `errorMessage.includes('503') ||
errorMessage.toLowerCase().includes('model is overloaded') ||
errorMessage.toLowerCase().includes('service unavailable')`. -/
def overloadMatch (m : String) : Bool :=
  jsIncludes m "503" || jsIncludes (jsToLower m) "model is overloaded"
    || jsIncludes (jsToLower m) "service unavailable"

/-- The `!rawContentOutput || !rawContentOutput.rawContent` branch of the flow:
classify `rawContentExtraction.error` and throw. -/
def stage1NoContentThrow (err : Option String) (tr : List FlowEvent) : FlowRun :=
  match err with
  | some e1 =>
    if overloadMatch e1 then
      ⟨.error "The AI service reported it is overloaded while extracting content. Please try again later.", tr⟩
    else
      ⟨.error ("AI failed to extract content from the receipt image. Error: " ++ e1), tr⟩
  | none =>
    ⟨.error "AI flow failed at raw content extraction step: No content produced. Check server logs for details.", tr⟩

/-- Stage 2 of the flow, entered with the non-empty `rawContent` from
Stage 1. -/
def scanReceiptStage2 (env : FlowEnv) (rawContent : String) : FlowRun :=
  let tr : List FlowEvent := [.stage1Start, .stage2Start rawContent]
  match env.stage2 rawContent with
  | .threw em =>
    let errorMessage := jsOrDefault em "An unknown error occurred during AI processing."
    if overloadMatch errorMessage then
      ⟨.error "The AI service is currently overloaded or unavailable while structuring data. Please try again in a few moments.", tr⟩
    else
      ⟨.error "AI processing failed during receipt data structuring. Please check server logs or try again.", tr⟩
  | .returned r2 =>
    match r2.payload.bind validateScanReceiptOutput with
    | some finalOutput => ⟨.ok finalOutput, tr⟩
    | none =>
      match r2.error with
      | some e2 =>
        if overloadMatch e2 then
          ⟨.error "The AI service reported it is overloaded while structuring data. Please try again later.", tr⟩
        else
          ⟨.error ("AI failed to structure the extracted receipt content. Error: " ++ e2), tr⟩
      | none =>
        ⟨.error "AI flow failed at structured data extraction step: No structured data produced. Check server logs for details.", tr⟩

/-- `scanReceiptFlow` of `scan-receipt.ts`: Stage 1, empty-content check,
Stage 2, final-output check, with the substring-based reclassification of
overload/unavailability failures at every failure point. -/
def scanReceiptFlow (env : FlowEnv) : FlowRun :=
  match env.stage1 with
  | .threw em =>
    let errorMessage := jsOrDefault em "An unknown error occurred during AI processing."
    if overloadMatch errorMessage then
      ⟨.error "The AI service is currently overloaded or unavailable. Please try again in a few moments.", [.stage1Start]⟩
    else
      ⟨.error "AI processing failed during receipt content extraction. Please check server logs or try again.", [.stage1Start]⟩
  | .returned r1 =>
    match r1.output with
    | none => stage1NoContentThrow r1.error [.stage1Start]
    | some rawContent =>
      if rawContent = "" then stage1NoContentThrow r1.error [.stage1Start]
      else scanReceiptStage2 env rawContent

/-- The four user-facing messages of the `ServiceUnavailable` classification
(the overloaded/unavailable, retry-shortly errors thrown by the flow). -/
def serviceUnavailableMessages : List String :=
  [ "The AI service is currently overloaded or unavailable. Please try again in a few moments."
  , "The AI service reported it is overloaded while extracting content. Please try again later."
  , "The AI service is currently overloaded or unavailable while structuring data. Please try again in a few moments."
  , "The AI service reported it is overloaded while structuring data. Please try again later." ]

def isServiceUnavailableMsg (m : String) : Bool :=
  serviceUnavailableMessages.contains m

/-! ## The image normalizer `resizeAndCompressImage`

From the receipt-scan-modal revision that resizes before scanning.  Browser
behaviours (image decode, 2D context availability, `canvas.toBlob`, the
`FileReader`s) are environment-supplied; the dimension arithmetic is the
source's, with `Math.round` on non-negative numbers embedded as
`natRound num den = round (num / den)`. -/

structure Dims where
  width : ℕ
  height : ℕ
deriving DecidableEq, Repr

/-- `Math.round (num / den)` for natural `num`, positive natural `den`
(round half up = `⌊num/den + 1/2⌋`). -/
def natRound (num den : ℕ) : ℕ :=
  (2 * num + den) / (2 * den)

/-- The dimension computation of `img.onload`:

```
if (width > height) { if (width > maxWidth) { height = round(height*maxWidth/width); width = maxWidth } }
else { if (height > maxHeight) { width = round(width*maxHeight/height); height = maxHeight } }
``` -/
def resizeDims (d : Dims) (maxWidth maxHeight : ℕ) : Dims :=
  if d.width > d.height then
    if d.width > maxWidth then ⟨maxWidth, natRound (d.height * maxWidth) d.width⟩ else d
  else
    if d.height > maxHeight then ⟨natRound (d.width * maxHeight) d.height, maxHeight⟩ else d

inductive DecodeResult where
  | failed
  | ok (dims : Dims)
deriving DecidableEq, Repr

/-- Browser behaviour for one `resizeAndCompressImage` run. -/
structure BrowserEnv where
  decode : DecodeResult
  ctx2dAvailable : Bool
  toBlobSucceeds : Bool
  readerSucceeds : Bool
deriving DecidableEq, Repr

/-- The data URI the promise resolves with: either the recompressed JPEG of
the (possibly resized) canvas, or the original file passed through. -/
inductive ScanDataUri where
  | processed (mime : String) (dims : Dims) (quality : ℚ)
  | original (file : ℕ)
deriving DecidableEq, Repr

/-- `resizeAndCompressImage(file, maxWidth, maxHeight, quality)`: decode the
image; on decode failure fall back to reading the original file; otherwise
resize onto a canvas (rejecting if no 2D context), convert to a JPEG blob
(rejecting if conversion fails), and read the blob as a data URI. -/
def resizeAndCompressImage (env : BrowserEnv) (file : ℕ)
    (maxWidth maxHeight : ℕ) (quality : ℚ) : Except String ScanDataUri :=
  match env.decode with
  | .failed =>
    if env.readerSucceeds then .ok (.original file) else .error "reader error"
  | .ok d =>
    if env.ctx2dAvailable then
      if env.toBlobSucceeds then
        if env.readerSucceeds then
          .ok (.processed "image/jpeg" (resizeDims d maxWidth maxHeight) quality)
        else .error "reader error"
      else .error "Canvas to Blob conversion failed"
    else .error "Could not get canvas context"

/-! ## The receipt-scan modal: `handleScan` and `handleConfirmScan` -/

inductive Toast where
  | scanError (description : String)
  | notAuthenticated
  | saveSuccess (count : ℕ)
  | dbError
  | cachedCategoryApplied (category item : String)
  | aiCategorySuggested (category item : String)
  | aiSuggestionFailed
  | aiError (description : String)
deriving DecidableEq, Repr

/-- The modal's React state. -/
structure ModalState where
  selectedFile : Option ℕ
  previewUrl : Option String
  isScanning : Bool
  scanResult : Option ScanReceiptOutput
  error : Option String
  processedReceiptDataUri : Option ScanDataUri
deriving DecidableEq, Repr

/-- The constants of the modal: `MAX_IMAGE_WIDTH = MAX_IMAGE_HEIGHT = 1200`,
`JPEG_IMAGE_QUALITY = 0.8`. -/
def MAX_IMAGE_DIM : ℕ := 1200

def JPEG_IMAGE_QUALITY : ℚ := 4 / 5

/-- `handleScan`: guard on `selectedFile`; reset the scanning state; resize
and compress; call `scanReceipt`; on any thrown error set and toast
`err.message || "Failed to scan receipt. Please try again or enter
manually."`; finally clear `isScanning`. -/
def handleScan (benv : BrowserEnv) (fenv : FlowEnv) (s : ModalState) :
    ModalState × List Toast :=
  match s.selectedFile with
  | none => (s, [])
  | some f =>
    let s1 := { s with isScanning := true, error := none, scanResult := none,
                       processedReceiptDataUri := none }
    match resizeAndCompressImage benv f MAX_IMAGE_DIM MAX_IMAGE_DIM JPEG_IMAGE_QUALITY with
    | .error e =>
      let errorMessage := jsOrDefault (some e) "Failed to scan receipt. Please try again or enter manually."
      ({ s1 with error := some errorMessage, isScanning := false }, [.scanError errorMessage])
    | .ok dataUri =>
      let s2 := { s1 with processedReceiptDataUri := some dataUri }
      match (scanReceiptFlow fenv).result with
      | .error m =>
        let errorMessage := jsOrDefault (some m) "Failed to scan receipt. Please try again or enter manually."
        ({ s2 with error := some errorMessage, isScanning := false }, [.scanError errorMessage])
      | .ok out =>
        ({ s2 with scanResult := some out, isScanning := false }, [])

/-- One document written to the `expenses` collection by `handleConfirmScan`. -/
structure ExpenseDoc where
  userId : String
  name : String
  price : ℚ
  category : String
  date : String
  storeName : String
  brand : String
  receiptImageUrl : Option ScanDataUri
deriving DecidableEq, Repr

/-- `handleConfirmScan`: bail out (with a toast when unauthenticated) unless
both a scan result and a user are present; otherwise map each scanned item to
an expense document and write them all.  Returns the new modal state, the
documents written via `addDoc`, and the toasts shown. -/
def handleConfirmScan (user : Option String) (s : ModalState) (today : String) :
    ModalState × List ExpenseDoc × List Toast :=
  match s.scanResult, user with
  | some res, some uid =>
    let docs := res.items.map (fun item =>
      { userId := uid
        name := item.name
        price := item.price
        category := if item.category = "" then "Uncategorized" else item.category
        date := today
        storeName := res.storeName
        brand := item.brand
        receiptImageUrl := s.processedReceiptDataUri : ExpenseDoc })
    (s, docs, [.saveSuccess docs.length])
  | _, _ =>
    (s, [], if user.isNone then [.notAuthenticated] else [])

/-! ## The manual-category cache of `expense-form.tsx`

The cache lives in localStorage under `smartspend-category-cache` as a JSON
object mapping lowercased item names to categories; we embed the stored
object as an association list with JavaScript-object update semantics
(assignment overwrites the key).  `Option CategoryCache` distinguishes an
absent localStorage entry from an empty one. -/

abbrev CategoryCache := List (String × String)

def cacheLookup (c : CategoryCache) (k : String) : Option String :=
  (c.find? (fun p => p.1 == k)).map (fun p => p.2)

/-- `getCachedCategory(item)`: read the cache and return
`cache[item.toLowerCase()] || null` — so a stored empty string is reported as
`null`, like a missing entry. -/
def getCachedCategory (store : Option CategoryCache) (item : String) : Option String :=
  match store with
  | none => none
  | some cache =>
    match cacheLookup cache (jsToLower item) with
    | some v => if v = "" then none else some v
    | none => none

/-- `setCachedCategory(item, category)`: `cache[item.toLowerCase()] =
category` on the stored object (or a fresh one), written back. -/
def setCachedCategory (store : Option CategoryCache) (item category : String) :
    CategoryCache :=
  let cache := store.getD []
  (jsToLower item, category) :: cache.filter (fun p => p.1 ≠ jsToLower item)

/-- Outcome of the `categorizeExpense` hosted-model call. -/
inductive CategorizeOutcome where
  | threw (message : Option String)
  | returned (categories : List (String × String))

/-- What one `handleSuggestCategory` run did: the category written to the
form (if any), whether `categorizeExpense` was invoked, the cache afterwards,
and the toasts shown. -/
structure SuggestResult where
  category : Option String
  modelInvoked : Bool
  cacheAfter : Option CategoryCache
  toasts : List Toast

/-- `handleSuggestCategory`: bail out on an empty item name; apply a truthy
cached category without calling the model; otherwise call
`categorizeExpense`, apply and cache the first suggested category (toasting a
failure when the list is empty or the call throws). -/
def handleSuggestCategory (store : Option CategoryCache) (itemName : String)
    (ai : CategorizeOutcome) : SuggestResult :=
  if itemName = "" then ⟨none, false, store, []⟩
  else
    match getCachedCategory store itemName with
    | some cached => ⟨some cached, false, store, [.cachedCategoryApplied cached itemName]⟩
    | none =>
      match ai with
      | .threw em =>
        ⟨none, true, store, [.aiError (jsOrDefault em "Could not get AI category suggestion.")]⟩
      | .returned [] => ⟨none, true, store, [.aiSuggestionFailed]⟩
      | .returned ((_, c) :: _) =>
        ⟨some c, true, some (setCachedCategory store itemName c), [.aiCategorySuggested c itemName]⟩

/-! ## Theorems -/

/-- C1 counterexample: Stage 1 throws with a message containing the substring
"overloaded" ("the backend is overloaded right now"), yet the flow fails with
the generic `ExtractionFailed` message, not a `ServiceUnavailable` one — the
code only matches "503", "model is overloaded" and "service unavailable". -/
theorem scan_c1_counterexample :
    jsIncludes "the backend is overloaded right now" "overloaded" = true ∧
    (scanReceiptFlow
        { stage1 := .threw (some "the backend is overloaded right now")
        , stage2 := fun _ => .threw none }).result
      = .error "AI processing failed during receipt content extraction. Please check server logs or try again." ∧
    isServiceUnavailableMsg
        "AI processing failed during receipt content extraction. Please check server logs or try again." = false :=
  ⟨by decide, by rfl, by decide⟩

/-- C1 (amended): if Stage 1 throws with a message that contains "503", or
contains "model is overloaded" or "service unavailable" case-insensitively,
the flow fails with the `ServiceUnavailable` classification. -/
theorem scan_c1_amended (env : FlowEnv) (m : String)
    (h1 : env.stage1 = .threw (some m)) (h2 : overloadMatch m = true) :
    (scanReceiptFlow env).result
      = .error "The AI service is currently overloaded or unavailable. Please try again in a few moments." ∧
    isServiceUnavailableMsg
        "The AI service is currently overloaded or unavailable. Please try again in a few moments." = true := by
  have hm : m ≠ "" := by
    intro he
    rw [he] at h2
    exact absurd h2 (by decide)
  refine ⟨?_, by decide⟩
  simp only [scanReceiptFlow, h1, jsOrDefault, if_neg hm, h2, if_true]

/-- Witness for C1 (amended) at the message "HTTP 503 while calling the
model". -/
theorem scan_c1_amended_witness :
    overloadMatch "HTTP 503 while calling the model" = true ∧
    (scanReceiptFlow
        { stage1 := .threw (some "HTTP 503 while calling the model")
        , stage2 := fun _ => .threw none }).result
      = .error "The AI service is currently overloaded or unavailable. Please try again in a few moments." :=
  ⟨by decide, (scan_c1_amended _ _ rfl (by decide)).1⟩

lemma stage1NoContentThrow_trace (err : Option String) (tr : List FlowEvent) :
    (stage1NoContentThrow err tr).trace = tr := by
  unfold stage1NoContentThrow
  cases err
  · rfl
  · dsimp only
    split <;> rfl

lemma stage1NoContentThrow_isError (err : Option String) (tr : List FlowEvent) :
    ∃ m, (stage1NoContentThrow err tr).result = Except.error m := by
  unfold stage1NoContentThrow
  cases err
  · exact ⟨_, rfl⟩
  · dsimp only
    split
    · exact ⟨_, rfl⟩
    · exact ⟨_, rfl⟩

lemma scanReceiptStage2_trace (env : FlowEnv) (rc : String) :
    (scanReceiptStage2 env rc).trace = [FlowEvent.stage1Start, FlowEvent.stage2Start rc] := by
  unfold scanReceiptStage2
  cases env.stage2 rc with
  | threw em =>
    dsimp only
    split <;> rfl
  | returned r2 =>
    dsimp only
    cases r2.payload.bind validateScanReceiptOutput
    · cases r2.error
      · rfl
      · dsimp only
        split <;> rfl
    · rfl

/-- C2: Stage 2 runs strictly after Stage 1 and only on a non-empty
`rawContent`.  (a) If Stage 1 returns with `rawContent` missing or empty, the
flow fails and no Stage-2 invocation appears in the trace.  (b) Whenever
Stage 2 is invoked on some raw text, Stage 1 returned exactly that non-empty
text, and the trace is Stage 1 followed by Stage 2. -/
theorem scan_c2 (env : FlowEnv) :
    (∀ r1, env.stage1 = .returned r1 → r1.output = none ∨ r1.output = some "" →
      (∃ m, (scanReceiptFlow env).result = Except.error m) ∧
      ∀ rc, FlowEvent.stage2Start rc ∉ (scanReceiptFlow env).trace) ∧
    (∀ rc, FlowEvent.stage2Start rc ∈ (scanReceiptFlow env).trace →
      ∃ r1, env.stage1 = .returned r1 ∧ r1.output = some rc ∧ rc ≠ "" ∧
        (scanReceiptFlow env).trace = [FlowEvent.stage1Start, FlowEvent.stage2Start rc]) := by
  constructor
  · intro r1 h1 hout
    have hflow : scanReceiptFlow env = stage1NoContentThrow r1.error [FlowEvent.stage1Start] := by
      rcases hout with h | h
      · simp only [scanReceiptFlow, h1, h]
      · simp only [scanReceiptFlow, h1, h]
        simp
    rw [hflow]
    refine ⟨stage1NoContentThrow_isError _ _, ?_⟩
    intro rc
    rw [stage1NoContentThrow_trace]
    simp
  · intro rc hmem
    rcases henv : env.stage1 with em | r1
    · have htr : (scanReceiptFlow env).trace = [FlowEvent.stage1Start] := by
        simp only [scanReceiptFlow, henv]
        split <;> rfl
      rw [htr] at hmem
      simp at hmem
    · rcases hout : r1.output with _ | rc'
      · have htr : (scanReceiptFlow env).trace = [FlowEvent.stage1Start] := by
          simp only [scanReceiptFlow, henv, hout, stage1NoContentThrow_trace]
        rw [htr] at hmem
        simp at hmem
      · by_cases hrc : rc' = ""
        · subst hrc
          have htr : (scanReceiptFlow env).trace = [FlowEvent.stage1Start] := by
            simp only [scanReceiptFlow, henv, hout]
            simp [stage1NoContentThrow_trace]
          rw [htr] at hmem
          simp at hmem
        · have htr : (scanReceiptFlow env).trace
              = [FlowEvent.stage1Start, FlowEvent.stage2Start rc'] := by
            simp only [scanReceiptFlow, henv, hout, if_neg hrc, scanReceiptStage2_trace]
          rw [htr] at hmem
          simp only [List.mem_cons, List.mem_singleton, List.not_mem_nil, or_false] at hmem
          have hrc2 : rc = rc' := by
            rcases hmem with h | h
            · cases h
            · injection h
          subst hrc2
          exact ⟨r1, rfl, hout, hrc, htr⟩

/-- Witness for C2 at a Stage-1 result whose `rawContent` is the empty
string. -/
theorem scan_c2_witness :
    (∃ m, (scanReceiptFlow
        { stage1 := .returned ⟨some "", none⟩
        , stage2 := fun _ => .threw none }).result = Except.error m) ∧
    FlowEvent.stage2Start "raw" ∉ (scanReceiptFlow
        { stage1 := .returned ⟨some "", none⟩
        , stage2 := fun _ => .threw none }).trace := by
  have h := (scan_c2 { stage1 := .returned ⟨some "", none⟩, stage2 := fun _ => .threw none }).1
    ⟨some "", none⟩ rfl (Or.inr rfl)
  exact ⟨h.1, h.2 "raw"⟩

lemma hasSegment_nil (t : List Char) : hasSegment [] t = true := by
  induction t with
  | nil => rfl
  | cons c r ih => simp [hasSegment, leadsWith]

lemma leadsWith_append (pat s t : List Char) (h : leadsWith pat s = true) :
    leadsWith pat (s ++ t) = true := by
  induction pat generalizing s with
  | nil => rfl
  | cons a as ih =>
    cases s with
    | nil => simp [leadsWith] at h
    | cons b bs =>
      simp only [List.cons_append, leadsWith, Bool.and_eq_true] at h ⊢
      exact ⟨h.1, ih bs h.2⟩

lemma hasSegment_append_left (pat s t : List Char) (h : hasSegment pat s = true) :
    hasSegment pat (s ++ t) = true := by
  induction s with
  | nil =>
    have hp : pat = [] := by
      cases pat with
      | nil => rfl
      | cons a as => simp [hasSegment] at h
    subst hp
    simpa using hasSegment_nil t
  | cons b bs ih =>
    simp only [hasSegment, Bool.or_eq_true] at h
    simp only [List.cons_append, hasSegment, Bool.or_eq_true]
    rcases h with h | h
    · exact Or.inl (leadsWith_append _ _ _ h)
    · exact Or.inr (ih h)

lemma jsIncludes_append_left (s t pat : String) (h : jsIncludes s pat = true) :
    jsIncludes (s ++ t) pat = true := by
  unfold jsIncludes at h ⊢
  have hdata : (s ++ t).toList = s.toList ++ t.toList := by
    simp [String.toList, String.data_append]
  rw [hdata]
  exact hasSegment_append_left _ _ _ h

lemma structureErrMsg_not_su (e : String) :
    isServiceUnavailableMsg
      ("AI failed to structure the extracted receipt content. Error: " ++ e) = false := by
  by_contra hb
  rw [Bool.not_eq_false] at hb
  have hstr : jsIncludes ("AI failed to structure the extracted receipt content. Error: " ++ e)
      "AI failed to structure" = true :=
    jsIncludes_append_left _ _ _ (by decide)
  simp only [isServiceUnavailableMsg, serviceUnavailableMessages, List.contains_cons,
    List.contains_nil, Bool.or_eq_true, beq_iff_eq] at hb
  rcases hb with h | h | h | h | h
  · rw [h] at hstr
    exact absurd hstr (by decide)
  · rw [h] at hstr
    exact absurd hstr (by decide)
  · rw [h] at hstr
    exact absurd hstr (by decide)
  · rw [h] at hstr
    exact absurd hstr (by decide)
  · exact absurd h (by decide)

/-- C3: if Stage 2 returns a payload that fails the zod schema (no validated
output), and its underlying error — genkit's stringified validation failure,
if present — carries no overload marker, then the flow throws an
`ExtractionFailed`-class error (not `ServiceUnavailable`) whose message
identifies the structuring step, and returns no receipt. -/
theorem scan_c3 (env : FlowEnv) (r1 : Stage1Result) (rc : String)
    (r2 : Stage2Result) (p : Json)
    (h1 : env.stage1 = .returned r1) (h2 : r1.output = some rc) (h3 : rc ≠ "")
    (h4 : env.stage2 rc = .returned r2) (h5 : r2.payload = some p)
    (h6 : validateScanReceiptOutput p = none)
    (h7 : ∀ e, r2.error = some e → overloadMatch e = false) :
    ∃ m, (scanReceiptFlow env).result = Except.error m ∧
      isServiceUnavailableMsg m = false ∧ jsIncludes m "structur" = true := by
  have hflow : scanReceiptFlow env = scanReceiptStage2 env rc := by
    simp only [scanReceiptFlow, h1, h2, if_neg h3]
  rw [hflow]
  unfold scanReceiptStage2
  rw [h4]
  dsimp only
  rw [h5]
  dsimp only [Option.bind]
  rw [h6]
  cases herr : r2.error with
  | none => exact ⟨_, rfl, by decide, by decide⟩
  | some e2 =>
    have hov := h7 e2 herr
    dsimp only
    rw [hov]
    exact ⟨_, rfl, structureErrMsg_not_su e2, jsIncludes_append_left _ _ _ (by decide)⟩

/-- Witness for C3 at a payload missing the required `total` field. -/
theorem scan_c3_witness :
    validateScanReceiptOutput
        (Json.obj [("storeName", .str "PANDA"), ("items", .arr [])]) = none ∧
    ∃ m, (scanReceiptFlow
        { stage1 := .returned ⟨some "1 Plate $9.10", none⟩
        , stage2 := fun _ => .returned
            ⟨some (Json.obj [("storeName", .str "PANDA"), ("items", .arr [])]), none⟩ }).result
      = Except.error m ∧
    isServiceUnavailableMsg m = false ∧ jsIncludes m "structur" = true :=
  ⟨by rfl,
   scan_c3 _ ⟨some "1 Plate $9.10", none⟩ "1 Plate $9.10"
     ⟨some (Json.obj [("storeName", .str "PANDA"), ("items", .arr [])]), none⟩ _
     rfl rfl (by decide) rfl rfl (by rfl) (fun e h => Option.noConfusion h)⟩

/-- C4: every schema-valid Stage-2 output is returned by the flow unchanged —
no surrounding code compares the sum of the item prices with the `total`
field, so no hypothesis about that sum is needed. -/
theorem scan_c4 (env : FlowEnv) (r1 : Stage1Result) (rc : String)
    (r2 : Stage2Result) (p : Json) (out : ScanReceiptOutput)
    (h1 : env.stage1 = .returned r1) (h2 : r1.output = some rc) (h3 : rc ≠ "")
    (h4 : env.stage2 rc = .returned r2) (h5 : r2.payload = some p)
    (h6 : validateScanReceiptOutput p = some out) :
    (scanReceiptFlow env).result = Except.ok out := by
  have hflow : scanReceiptFlow env = scanReceiptStage2 env rc := by
    simp only [scanReceiptFlow, h1, h2, if_neg h3]
  rw [hflow]
  unfold scanReceiptStage2
  rw [h4]
  dsimp only
  rw [h5]
  dsimp only [Option.bind]
  rw [h6]

/-- Witness for C4 at a validated output whose single item is priced 100
while its `total` field is 1: the flow still returns it as the final
result. -/
theorem scan_c4_witness :
    (scanReceiptFlow
        { stage1 := .returned ⟨some "CAVIAR 100.00 TOTAL 1.00", none⟩
        , stage2 := fun _ => .returned
            ⟨some (Json.obj
              [ ("storeName", .str "S")
              , ("items", .arr [Json.obj
                  [ ("name", .str "Caviar"), ("price", .num 100)
                  , ("brand", .str ""), ("category", .str "Food")]])
              , ("total", .num 1)]), none⟩ }).result
      = Except.ok ⟨"S", [⟨"Caviar", 100, "", "Food"⟩], 1⟩ ∧
    (([⟨"Caviar", 100, "", "Food"⟩] : List ScannedItem).map ScannedItem.price).sum = 100 ∧
    (⟨"S", [⟨"Caviar", 100, "", "Food"⟩], 1⟩ : ScanReceiptOutput).total = 1 :=
  ⟨scan_c4 _ ⟨some "CAVIAR 100.00 TOTAL 1.00", none⟩ "CAVIAR 100.00 TOTAL 1.00" _ _ _
      rfl rfl (by decide) rfl rfl (by rfl),
   by norm_num, rfl⟩

lemma natRound_scale_le_of_lt (h w : ℕ) (hlt : h < w) : natRound (h * 1200) w ≤ 1200 := by
  have hw : 0 < 2 * w := by omega
  unfold natRound
  apply Nat.lt_succ_iff.mp
  rw [Nat.div_lt_iff_lt_mul hw]
  omega

lemma natRound_scale_le_of_le (w h : ℕ) (hle : w ≤ h) (hpos : 0 < h) :
    natRound (w * 1200) h ≤ 1200 := by
  have hh : 0 < 2 * h := by omega
  unfold natRound
  apply Nat.lt_succ_iff.mp
  rw [Nat.div_lt_iff_lt_mul hh]
  omega

lemma resizeDims_le (d : Dims) :
    (resizeDims d 1200 1200).width ≤ 1200 ∧ (resizeDims d 1200 1200).height ≤ 1200 := by
  unfold resizeDims
  by_cases h1 : d.width > d.height
  · by_cases h2 : d.width > 1200
    · rw [if_pos h1, if_pos h2]
      exact ⟨le_refl _, natRound_scale_le_of_lt _ _ h1⟩
    · rw [if_pos h1, if_neg h2]
      constructor <;> omega
  · by_cases h2 : d.height > 1200
    · rw [if_neg h1, if_pos h2]
      exact ⟨natRound_scale_le_of_le _ _ (by omega) (by omega), le_refl _⟩
    · rw [if_neg h1, if_neg h2]
      constructor <;> omega

lemma resizeDims_id (d : Dims) (hw : d.width ≤ 1200) (hh : d.height ≤ 1200) :
    resizeDims d 1200 1200 = d := by
  unfold resizeDims
  by_cases h1 : d.width > d.height
  · rw [if_pos h1, if_neg (by omega)]
  · rw [if_neg h1, if_neg (by omega)]

/-- C6: on a successfully processed image the normalizer yields a JPEG whose
dimensions come from the source's resize computation: both edges end up at
most 1200, an image already within 1200×1200 keeps its exact dimensions, and
an oversized image has its longer edge set to 1200 with the shorter edge
scaled by the same factor through `Math.round`. -/
theorem rz_c6 (env : BrowserEnv) (file : ℕ) (d : Dims) (quality : ℚ)
    (hd : env.decode = .ok d) (hctx : env.ctx2dAvailable = true)
    (hblob : env.toBlobSucceeds = true) (hrd : env.readerSucceeds = true) :
    resizeAndCompressImage env file 1200 1200 quality
      = .ok (.processed "image/jpeg" (resizeDims d 1200 1200) quality) ∧
    (resizeDims d 1200 1200).width ≤ 1200 ∧
    (resizeDims d 1200 1200).height ≤ 1200 ∧
    (d.width ≤ 1200 → d.height ≤ 1200 → resizeDims d 1200 1200 = d) ∧
    (d.height < d.width → 1200 < d.width →
      resizeDims d 1200 1200 = ⟨1200, natRound (d.height * 1200) d.width⟩) ∧
    (d.width ≤ d.height → 1200 < d.height →
      resizeDims d 1200 1200 = ⟨natRound (d.width * 1200) d.height, 1200⟩) := by
  refine ⟨?_, (resizeDims_le d).1, (resizeDims_le d).2, resizeDims_id d, ?_, ?_⟩
  · simp only [resizeAndCompressImage, hd, hctx, hblob, hrd, if_true]
  · intro h1 h2
    unfold resizeDims
    rw [if_pos h1, if_pos h2]
  · intro h1 h2
    unfold resizeDims
    rw [if_neg (by omega), if_pos h2]

/-- Witness for C6 at a 2400×900 image: the result is a 1200×450 JPEG. -/
theorem rz_c6_witness :
    resizeAndCompressImage ⟨.ok ⟨2400, 900⟩, true, true, true⟩ 0 1200 1200 (4 / 5)
      = .ok (.processed "image/jpeg" ⟨1200, 450⟩ (4 / 5)) := by
  have h := rz_c6 ⟨.ok ⟨2400, 900⟩, true, true, true⟩ 0 ⟨2400, 900⟩ (4 / 5) rfl rfl rfl rfl
  rw [h.1]
  rfl

/-- C7 counterexample: with a decodable image but no canvas 2D context, the
normalizer rejects with "Could not get canvas context" instead of resolving
with the original file as a data URI — so this failure mode is not
pass-through. -/
theorem rz_c7_counterexample :
    resizeAndCompressImage ⟨.ok ⟨800, 600⟩, false, true, true⟩ 7 1200 1200 (4 / 5)
      = .error "Could not get canvas context" ∧
    (Except.error "Could not get canvas context" : Except String ScanDataUri)
      ≠ .ok (.original 7) :=
  ⟨rfl, fun h => Except.noConfusion h⟩

/-- C7 (amended): only an image decode failure degrades to pass-through (the
original file re-encoded as a data URI, provided the fallback reader
succeeds); a missing canvas 2D context or a failed canvas-to-blob conversion
rejects, propagating the error to the caller. -/
theorem rz_c7_amended (env : BrowserEnv) (file : ℕ) (quality : ℚ) :
    (env.decode = .failed → env.readerSucceeds = true →
      resizeAndCompressImage env file 1200 1200 quality = .ok (.original file)) ∧
    (∀ d, env.decode = .ok d → env.ctx2dAvailable = false →
      resizeAndCompressImage env file 1200 1200 quality
        = .error "Could not get canvas context") ∧
    (∀ d, env.decode = .ok d → env.ctx2dAvailable = true → env.toBlobSucceeds = false →
      resizeAndCompressImage env file 1200 1200 quality
        = .error "Canvas to Blob conversion failed") := by
  refine ⟨?_, ?_, ?_⟩
  · intro h1 h2
    simp only [resizeAndCompressImage, h1, h2, if_true]
  · intro d h1 h2
    simp only [resizeAndCompressImage, h1, h2, Bool.false_eq_true, if_false]
  · intro d h1 h2 h3
    simp only [resizeAndCompressImage, h1, h2, h3, if_true, Bool.false_eq_true, if_false]

/-- Witness for C7 (amended): a decode failure resolves with the original
file. -/
theorem rz_c7_amended_witness :
    resizeAndCompressImage ⟨.failed, true, true, true⟩ 3 1200 1200 (4 / 5)
      = .ok (.original 3) :=
  (rz_c7_amended ⟨.failed, true, true, true⟩ 3 (4 / 5)).1 rfl rfl

lemma str_append_ne_empty (s t : String) (hs : s ≠ "") : s ++ t ≠ "" := by
  intro h
  apply hs
  have hd := congrArg String.data h
  rw [String.data_append] at hd
  have h0 : s.data ++ t.data = ([] : List Char) := hd
  exact String.ext (List.append_eq_nil.mp h0).1

/-- Every error the flow throws carries a non-empty message. -/
lemma scanReceiptFlow_error_ne_empty (env : FlowEnv) (m : String)
    (h : (scanReceiptFlow env).result = Except.error m) : m ≠ "" := by
  unfold scanReceiptFlow stage1NoContentThrow scanReceiptStage2 at h
  repeat' split at h
  all_goals try dsimp only at h
  all_goals repeat' split at h
  all_goals try dsimp only at h
  all_goals
    first
      | exact Except.noConfusion h
      | (injection h with h2
         rw [← h2]
         decide)
      | (injection h with h2
         rw [← h2]
         exact str_append_ne_empty _ _ (by decide))

/-- C8: when the scan flow throws, `handleScan` leaves `selectedFile` and
`previewUrl` untouched, keeps `scanResult` cleared, and surfaces the thrown
message verbatim both in the alert state and in the toast. -/
theorem modal_c8 (benv : BrowserEnv) (fenv : FlowEnv) (s : ModalState) (f : ℕ)
    (u : ScanDataUri) (m : String)
    (hf : s.selectedFile = some f)
    (hrz : resizeAndCompressImage benv f MAX_IMAGE_DIM MAX_IMAGE_DIM JPEG_IMAGE_QUALITY
      = .ok u)
    (hscan : (scanReceiptFlow fenv).result = Except.error m) :
    (handleScan benv fenv s).1.selectedFile = s.selectedFile ∧
    (handleScan benv fenv s).1.previewUrl = s.previewUrl ∧
    (handleScan benv fenv s).1.scanResult = none ∧
    (handleScan benv fenv s).1.error = some m ∧
    (handleScan benv fenv s).2 = [Toast.scanError m] := by
  have hm : m ≠ "" := scanReceiptFlow_error_ne_empty fenv m hscan
  refine ⟨?_, ?_, ?_, ?_, ?_⟩ <;>
    simp only [handleScan, hf, hrz, hscan, jsOrDefault, if_neg hm]

/-- Witness for C8: Stage 1 throws a 503, and the modal surfaces the
`ServiceUnavailable` message verbatim with the form state intact. -/
theorem modal_c8_witness :
    (handleScan ⟨.ok ⟨100, 100⟩, true, true, true⟩
        { stage1 := .threw (some "error 503"), stage2 := fun _ => .threw none }
        ⟨some 5, some "blob:p", false, none, none, none⟩).1.selectedFile = some 5 ∧
    (handleScan ⟨.ok ⟨100, 100⟩, true, true, true⟩
        { stage1 := .threw (some "error 503"), stage2 := fun _ => .threw none }
        ⟨some 5, some "blob:p", false, none, none, none⟩).1.previewUrl = some "blob:p" ∧
    (handleScan ⟨.ok ⟨100, 100⟩, true, true, true⟩
        { stage1 := .threw (some "error 503"), stage2 := fun _ => .threw none }
        ⟨some 5, some "blob:p", false, none, none, none⟩).1.scanResult = none ∧
    (handleScan ⟨.ok ⟨100, 100⟩, true, true, true⟩
        { stage1 := .threw (some "error 503"), stage2 := fun _ => .threw none }
        ⟨some 5, some "blob:p", false, none, none, none⟩).1.error
      = some "The AI service is currently overloaded or unavailable. Please try again in a few moments." ∧
    (handleScan ⟨.ok ⟨100, 100⟩, true, true, true⟩
        { stage1 := .threw (some "error 503"), stage2 := fun _ => .threw none }
        ⟨some 5, some "blob:p", false, none, none, none⟩).2
      = [Toast.scanError "The AI service is currently overloaded or unavailable. Please try again in a few moments."] :=
  modal_c8 ⟨.ok ⟨100, 100⟩, true, true, true⟩
    { stage1 := .threw (some "error 503"), stage2 := fun _ => .threw none }
    ⟨some 5, some "blob:p", false, none, none, none⟩ 5
    (.processed "image/jpeg" ⟨100, 100⟩ JPEG_IMAGE_QUALITY)
    "The AI service is currently overloaded or unavailable. Please try again in a few moments."
    rfl rfl rfl

/-- C9 counterexample: after caching the empty-string category for "Milk",
`getCachedCategory` reports `null` rather than that category (the source
returns `cache[key] || null`, and the empty string is falsy), so the claim's
"for every category" fails at the empty category. -/
theorem cache_c9_counterexample :
    getCachedCategory (some (setCachedCategory none "Milk" "")) "MILK" = none ∧
    (none : Option String) ≠ some "" :=
  ⟨rfl, fun h => Option.noConfusion h⟩

/-- C9 (amended): the cache is keyed by the lowercased item name — for every
non-empty category, a set under one spelling is read back under any spelling
with the same lowercase form — and a cache hit makes `handleSuggestCategory`
apply the cached value without invoking `categorizeExpense`. -/
theorem cache_c9_amended :
    (∀ (store : Option CategoryCache) (name name2 cat : String), cat ≠ "" →
      jsToLower name2 = jsToLower name →
      getCachedCategory (some (setCachedCategory store name cat)) name2 = some cat) ∧
    (∀ (store : Option CategoryCache) (itemName c : String) (ai : CategorizeOutcome),
      itemName ≠ "" → getCachedCategory store itemName = some c →
      (handleSuggestCategory store itemName ai).category = some c ∧
      (handleSuggestCategory store itemName ai).modelInvoked = false) := by
  constructor
  · intro store name name2 cat hcat heq
    unfold getCachedCategory setCachedCategory cacheLookup
    rw [heq]
    simp only [List.find?_cons, beq_self_eq_true]
    simp [hcat]
  · intro store itemName c ai hne hc
    unfold handleSuggestCategory
    rw [if_neg hne, hc]
    exact ⟨rfl, rfl⟩

/-- Witness for C9 (amended) at the cached pair ("Milk", "Food") read back as
"MILK". -/
theorem cache_c9_amended_witness :
    getCachedCategory (some (setCachedCategory none "Milk" "Food")) "MILK" = some "Food" ∧
    (handleSuggestCategory (some [("milk", "Food")]) "MILK" (.returned [])).category
      = some "Food" ∧
    (handleSuggestCategory (some [("milk", "Food")]) "MILK" (.returned [])).modelInvoked
      = false := by
  refine ⟨cache_c9_amended.1 none "Milk" "MILK" "Food" (by decide) rfl, ?_, ?_⟩
  · exact (cache_c9_amended.2 (some [("milk", "Food")]) "MILK" "Food" (.returned [])
      (by decide) rfl).1
  · exact (cache_c9_amended.2 (some [("milk", "Food")]) "MILK" "Food" (.returned [])
      (by decide) rfl).2

/-- C10: when there is no scan result or no authenticated user,
`handleConfirmScan` writes no expense document and leaves the modal state
exactly as it was. -/
theorem modal_c10 (user : Option String) (s : ModalState) (today : String)
    (h : s.scanResult = none ∨ user = none) :
    (handleConfirmScan user s today).2.1 = [] ∧
    (handleConfirmScan user s today).1 = s := by
  unfold handleConfirmScan
  rcases h with h | h
  · rw [h]
    cases user <;> exact ⟨rfl, rfl⟩
  · rw [h]
    rcases hsr : s.scanResult with _ | r <;> exact ⟨rfl, rfl⟩

/-- Witness for C10 at an unauthenticated confirm with a present scan
result. -/
theorem modal_c10_witness :
    (handleConfirmScan none
        ⟨some 1, some "blob:p", false, some ⟨"S", [], 0⟩, none, none⟩ "2026-10-11").2.1 = [] ∧
    (handleConfirmScan none
        ⟨some 1, some "blob:p", false, some ⟨"S", [], 0⟩, none, none⟩ "2026-10-11").1
      = ⟨some 1, some "blob:p", false, some ⟨"S", [], 0⟩, none, none⟩ :=
  modal_c10 none ⟨some 1, some "blob:p", false, some ⟨"S", [], 0⟩, none, none⟩
    "2026-10-11" (Or.inr rfl)

end SmartSpend
